import Mathlib

set_option maxRecDepth 8000

/-!
Verification development for the pray-cli repository.

The Go sources are shallowly embedded: machine integers become `Nat`/`Int`
with explicit reduction modulo 2^32 where the SHA-256 compression overflows,
`float64` coordinates become `Rat`, `time.Time` values become `Nat` instants
(or a day-month-year record where only the calendar date matters), fallible
operations return `Except`/`Option`, and the file system touched by the cache
becomes an explicit state record threaded through each operation.
-/

namespace PrayCli

/-! ## SHA-256 (the `crypto/sha256` routine used by `cache.GenerateKey`) -/

/-- 2^32, the modulus of every 32-bit word operation in SHA-256. -/
def M32 : Nat := 4294967296

/-- Right rotation of a 32-bit word by `n` places. -/
def rotWord (n x : Nat) : Nat :=
  ((x >>> n) ||| (x <<< (32 - n))) % M32

/-- The Σ0 function of the compression rounds. -/
def sumA (x : Nat) : Nat := (rotWord 2 x) ^^^ (rotWord 13 x) ^^^ (rotWord 22 x)

/-- The Σ1 function of the compression rounds. -/
def sumE (x : Nat) : Nat := (rotWord 6 x) ^^^ (rotWord 11 x) ^^^ (rotWord 25 x)

/-- The σ0 function of the message schedule. -/
def sigLo (x : Nat) : Nat := (rotWord 7 x) ^^^ (rotWord 18 x) ^^^ (x >>> 3)

/-- The σ1 function of the message schedule. -/
def sigHi (x : Nat) : Nat := (rotWord 17 x) ^^^ (rotWord 19 x) ^^^ (x >>> 10)

/-- The 64 SHA-256 round constants of FIPS 180-4 (as decimal 32-bit words). -/
def K : List Nat :=
  [1116352408, 1899447441, 3049323471, 3921009573, 961987163, 1508970993,
   2453635748, 2870763221, 3624381080, 310598401, 607225278, 1426881987,
   1925078388, 2162078206, 2614888103, 3248222580, 3835390401, 4022224774,
   264347078, 604807628, 770255983, 1249150122, 1555081692, 1996064986,
   2554220882, 2821834349, 2952996808, 3210313671, 3336571891, 3584528711,
   113926993, 338241895, 666307205, 773529912, 1294757372, 1396182291,
   1695183700, 1986661051, 2177026350, 2456956037, 2730485921, 2820302411,
   3259730800, 3345764771, 3516065817, 3600352804, 4094571909, 275423344,
   430227734, 506948616, 659060556, 883997877, 958139571, 1322822218,
   1537002063, 1747873779, 1955562222, 2024104815, 2227730452, 2361852424,
   2428436474, 2756734187, 3204031479, 3329325298]

/-- Append the 0x80 byte, the zero padding and the 64-bit big-endian bit
length, so the padded message length is a multiple of 64 bytes. -/
def padMessage (msg : List Nat) : List Nat :=
  let len := msg.length
  let zeros := (64 + 55 - (len % 64)) % 64
  let bitLen := len * 8
  msg ++ [0x80] ++ List.replicate zeros 0 ++
    [(bitLen >>> 56) % 256, (bitLen >>> 48) % 256, (bitLen >>> 40) % 256, (bitLen >>> 32) % 256,
     (bitLen >>> 24) % 256, (bitLen >>> 16) % 256, (bitLen >>> 8) % 256, bitLen % 256]

/-- Big-endian assembly of bytes into 32-bit words. -/
def toWords : List Nat → List Nat
  | b0 :: b1 :: b2 :: b3 :: rest => (b0 <<< 24 + b1 <<< 16 + b2 <<< 8 + b3) :: toWords rest
  | _ => []

/-- One compression round per element of `ks`.  The first sixteen rounds draw
their message word from the head of the sixteen-word window `w0` … `w15`;
every round also extends the schedule window on the fly, which is the standard
sliding-window formulation of the FIPS 180-4 message schedule.  The window and
the eight working registers are explicit arguments so kernel evaluation never
walks a list. -/
def rounds (ks : List Nat)
    (w0 w1 w2 w3 w4 w5 w6 w7 w8 w9 w10 w11 w12 w13 w14 w15 : Nat)
    (a b c d e f g h : Nat) : List Nat :=
  match ks with
  | [] => [a, b, c, d, e, f, g, h]
  | k :: ks =>
    let ch := (e &&& f) ^^^ ((M32 - 1 - e) &&& g)
    let maj := (a &&& b) ^^^ (a &&& c) ^^^ (b &&& c)
    let t1 := (h + sumE e + ch + k + w0) % M32
    let t2 := (sumA a + maj) % M32
    let w16 := (sigHi w14 + w9 + sigLo w1 + w0) % M32
    rounds ks w1 w2 w3 w4 w5 w6 w7 w8 w9 w10 w11 w12 w13 w14 w15 w16
      ((t1 + t2) % M32) a b c ((d + t1) % M32) e f g

/-- Compress one 64-byte block into the running eight-word state. -/
def compress (hs : List Nat) (block : List Nat) : List Nat :=
  match toWords block, hs with
  | [w0, w1, w2, w3, w4, w5, w6, w7, w8, w9, w10, w11, w12, w13, w14, w15],
    [h0, h1, h2, h3, h4, h5, h6, h7] =>
    match rounds K w0 w1 w2 w3 w4 w5 w6 w7 w8 w9 w10 w11 w12 w13 w14 w15
        h0 h1 h2 h3 h4 h5 h6 h7 with
    | [a, b, c, d, e, f, g, h] =>
      [(h0 + a) % M32, (h1 + b) % M32, (h2 + c) % M32, (h3 + d) % M32,
       (h4 + e) % M32, (h5 + f) % M32, (h6 + g) % M32, (h7 + h) % M32]
    | _ => hs
  | _, _ => hs

def chunksAux : Nat → List Nat → List (List Nat)
  | 0, _ => []
  | fuel + 1, l => if l.isEmpty then [] else l.take 64 :: chunksAux fuel (l.drop 64)

/-- Split a byte list into 64-byte blocks. -/
def chunks64 (l : List Nat) : List (List Nat) := chunksAux l.length l

/-- The SHA-256 initial hash value of FIPS 180-4 (as decimal 32-bit
words). -/
def H0 : List Nat :=
  [1779033703, 3144134277, 1013904242, 2773480762,
   1359893119, 2600822924, 528734635, 1541459225]

/-- SHA-256 digest of a byte sequence, as eight 32-bit words. -/
def sha256 (msg : List Nat) : List Nat :=
  (chunks64 (padMessage msg)).foldl compress H0

def hexDigit (n : Nat) : Char :=
  ("0123456789abcdef".toList).getD n '0'

def wordHex (w : Nat) : List Char :=
  [hexDigit ((w >>> 28) % 16), hexDigit ((w >>> 24) % 16), hexDigit ((w >>> 20) % 16),
   hexDigit ((w >>> 16) % 16), hexDigit ((w >>> 12) % 16), hexDigit ((w >>> 8) % 16),
   hexDigit ((w >>> 4) % 16), hexDigit (w % 16)]

/-- Lower-case hexadecimal rendering of the digest, as Go `hex.EncodeToString`
produces it. -/
def sha256hex (msg : List Nat) : String :=
  String.mk ((sha256 msg).flatMap wordHex)

/-! ## RetryingHTTPClient: `Client.doRequestWithRetry` (internal/api/client.go)

The transport is a function from the 0-based attempt index to the outcome of
one `doRequest` call (a network error or non-2xx status yields `.error`; an
HTTP 2xx response yields `.ok body`).  The cancellation context is observed at
two program points per loop iteration, so it is embedded as two boolean
functions of the iteration index: `ctxDoneAtSleep i` is whether `ctx.Done()`
has fired when the backoff select of iteration `i` runs, and
`ctxDoneAfterAttempt i` is whether `ctx.Err() != nil` right after attempt `i`
fails. -/

inductive RetryError where
  /-- `ctx.Err()` surfaced because the caller context was cancelled. -/
  | ctxCanceled : RetryError
  /-- The final `request failed after %d attempts` error, wrapping the last
  per-attempt error. -/
  | wrapped (attempts : Nat) (last : Option String) : RetryError
deriving DecidableEq

deriving instance DecidableEq for Except

/-- Observable outcome of `doRequestWithRetry`: how many `doRequest` calls
were issued, which backoff sleeps completed (in milliseconds, in order), and
the returned value. -/
structure RetryOutcome where
  attemptsMade : Nat
  sleepsMs : List Nat
  result : Except RetryError (List Nat)
deriving DecidableEq

/-- The body of the `for attempt := 0; attempt <= maxRetries; attempt++` loop
of `doRequestWithRetry`, with `fuel = maxRetries + 1 - attempt` remaining
iterations.  Mirrors the source line by line: a positive attempt first sleeps
`attempt² × 100ms` unless the context is already done at the select; a
successful attempt returns the body; a failed attempt records the error,
aborts with the context error if the context has fired, and otherwise
continues. -/
def retryLoop (maxRetries : Nat) (transport : Nat → Except String (List Nat))
    (ctxDoneAtSleep ctxDoneAfterAttempt : Nat → Bool) :
    Nat → Nat → Option String → Nat → List Nat → RetryOutcome
  | 0, _attempt, lastErr, made, sleeps =>
    ⟨made, sleeps.reverse, .error (.wrapped (maxRetries + 1) lastErr)⟩
  | fuel + 1, attempt, _lastErr, made, sleeps =>
    if attempt != 0 && ctxDoneAtSleep attempt then
      ⟨made, sleeps.reverse, .error .ctxCanceled⟩
    else
      let sleeps1 := if attempt == 0 then sleeps else attempt * attempt * 100 :: sleeps
      match transport attempt with
      | .ok body => ⟨made + 1, sleeps1.reverse, .ok body⟩
      | .error e =>
        if ctxDoneAfterAttempt attempt then
          ⟨made + 1, sleeps1.reverse, .error .ctxCanceled⟩
        else
          retryLoop maxRetries transport ctxDoneAtSleep ctxDoneAfterAttempt
            fuel (attempt + 1) (some e) (made + 1) sleeps1

/-- `Client.doRequestWithRetry` for a non-negative `maxRetries`. -/
def doRequestWithRetry (maxRetries : Nat) (transport : Nat → Except String (List Nat))
    (ctxDoneAtSleep ctxDoneAfterAttempt : Nat → Bool) : RetryOutcome :=
  retryLoop maxRetries transport ctxDoneAtSleep ctxDoneAfterAttempt
    (maxRetries + 1) 0 none 0 []

/-! ## GeolocationResolver (internal/location)

`float64` coordinates are embedded as `Rat`; the comparisons in
`Location.IsValid` are exact on every coordinate a provider can return, so no
floating-point rounding is involved in the claims.  Each provider adapter
(`detectFromIPAPI`, `detectFromIPInfo`, `detectFromIPAPICo`) performs one HTTP
GET, decodes its own JSON schema and maps it into a `Location`; its outcome is
embedded as an `Except String Location` value: `.error` for a request,
decode or provider-status failure, `.ok loc` for a decoded candidate
location (not yet validated).  `time.Now()` is an explicit `now` instant. -/

structure Location where
  address : String := ""
  latitude : Rat := 0
  longitude : Rat := 0
  city : String := ""
  country : String := ""
  countryCode : String := ""
  timezone : String := ""
  detectedAt : Option Nat := none
  source : String := ""
deriving DecidableEq

/-- `Location.IsValid` (internal/location/types.go): coordinates inside
[-90,90]×[-180,180] and not both zero. -/
def Location.IsValid (l : Location) : Bool :=
  decide (-90 ≤ l.latitude) && decide (l.latitude ≤ 90) &&
  decide (-180 ≤ l.longitude) && decide (l.longitude ≤ 180) &&
  (decide (l.latitude ≠ 0) || decide (l.longitude ≠ 0))

/-- The acceptance test `err == nil && loc.IsValid()` applied to one provider
outcome in `Detector.DetectFromIP`. -/
def providerAccepts : Except String Location → Bool
  | .ok loc => loc.IsValid
  | .error _ => false

/-- The candidate location of a successful provider outcome. -/
def okLoc : Except String Location → Location
  | .ok loc => loc
  | .error _ => {}

/-- The stamping `loc.Source = "ip"; loc.DetectedAt = time.Now()` performed on
an accepted provider result. -/
def stampIP (loc : Location) (now : Nat) : Location :=
  { loc with source := "ip", detectedAt := some now }

/-- `Detector.DetectFromIP`: try ip-api.com, then ipinfo.io, then ipapi.co;
accept the first outcome that returned without error and passes `IsValid`,
stamped with source and detection time; if none does, return the aggregated
error.  The second component counts how many providers were called: a later
provider runs exactly when every earlier one was rejected. -/
def DetectFromIP (p1 p2 p3 : Except String Location) (now : Nat) :
    Except String Location × Nat :=
  if providerAccepts p1 then (.ok (stampIP (okLoc p1) now), 1)
  else if providerAccepts p2 then (.ok (stampIP (okLoc p2) now), 2)
  else if providerAccepts p3 then (.ok (stampIP (okLoc p3) now), 3)
  else (.error "failed to detect location from IP: all services failed", 3)

/-! ## API response handling (internal/api/client.go)

Each `Get*` method first runs `doRequestWithRetry`, then `json.Unmarshal`,
then (for three of the four operations) compares the `code` field of the JSON
body against 200.  The JSON decode step is embedded as a caller-supplied
`parse` function from the body bytes to the decoded value, `none` marking a
decode failure. -/

/-- A decoded prayer-times (or Qibla) response body: the numeric status code,
the status string, and the payload, which the claims treat as opaque. -/
structure ApiResponse where
  code : Int
  status : String
  data : Nat
deriving DecidableEq

/-- A decoded `/calendar` response body; its payload is a list of day
entries. -/
structure CalendarBody where
  code : Int
  status : String
  data : List Nat
deriving DecidableEq

inductive ApiError where
  /-- `failed to fetch ...: %w` wrapping a transport-level error. -/
  | fetchFailed (e : RetryError) : ApiError
  /-- `failed to parse response: %w`. -/
  | parseFailed : ApiError
  /-- `API error: %s (code: %d)` — the remote application error. -/
  | apiError (status : String) (code : Int) : ApiError
  /-- `address is required`. -/
  | addressRequired : ApiError
deriving DecidableEq

/-- `Client.GetPrayerTimes` from the fetch outcome onward: propagate a fetch
error, propagate a decode failure, reject a body whose `code` differs from
200, and otherwise return the decoded response. -/
def GetPrayerTimes (fetch : Except RetryError (List Nat))
    (parse : List Nat → Option ApiResponse) : Except ApiError ApiResponse :=
  match fetch with
  | .error e => .error (.fetchFailed e)
  | .ok body =>
    match parse body with
    | none => .error .parseFailed
    | some result =>
      if result.code ≠ 200 then .error (.apiError result.status result.code)
      else .ok result

/-- `Client.GetPrayerTimesByAddress`: an empty address is rejected up front;
otherwise the handling is identical to `GetPrayerTimes`. -/
def GetPrayerTimesByAddress (address : String) (fetch : Except RetryError (List Nat))
    (parse : List Nat → Option ApiResponse) : Except ApiError ApiResponse :=
  if address = "" then .error .addressRequired
  else GetPrayerTimes fetch parse

/-- `Client.GetQibla` from the fetch outcome onward; same shape as
`GetPrayerTimes`. -/
def GetQibla (fetch : Except RetryError (List Nat))
    (parse : List Nat → Option ApiResponse) : Except ApiError ApiResponse :=
  match fetch with
  | .error e => .error (.fetchFailed e)
  | .ok body =>
    match parse body with
    | none => .error .parseFailed
    | some result =>
      if result.code ≠ 200 then .error (.apiError result.status result.code)
      else .ok result

/-- `Client.GetCalendarMonth` from the fetch outcome onward: the decoded
`data` array is returned without any comparison of the body `code` field
against 200 — the source has no such check for this operation. -/
def GetCalendarMonth (fetch : Except RetryError (List Nat))
    (parse : List Nat → Option CalendarBody) : Except ApiError (List Nat) :=
  match fetch with
  | .error e => .error (.fetchFailed e)
  | .ok body =>
    match parse body with
    | none => .error .parseFailed
    | some result => .ok result.data

/-- The full `GetPrayerTimes` pipeline including the retrying fetch, paired
with the number of transport attempts the fetch made. -/
def GetPrayerTimesPipeline (maxRetries : Nat)
    (transport : Nat → Except String (List Nat))
    (ctxDoneAtSleep ctxDoneAfterAttempt : Nat → Bool)
    (parse : List Nat → Option ApiResponse) :
    Except ApiError ApiResponse × Nat :=
  let out := doRequestWithRetry maxRetries transport ctxDoneAtSleep ctxDoneAfterAttempt
  (GetPrayerTimes out.result parse, out.attemptsMade)

/-! ## ResponseCache (internal/cache, embedded from src/unnamed/part_003)

The byte payloads stored by the cache are embedded as the `Bytes` type: a
byte string either is the JSON serialization of a decoded prayer-times
response (`.ser r`, produced by `json.Marshal`) or it is not (`.raw bs`), in
which case `json.Unmarshal` into that response type fails.  A cache entry
file either parses as the `Entry` envelope or is corrupt.  The file system is
a record of a directory-existence map and a path-to-content map; `os.Remove`
and `os.WriteFile` update it pointwise, and `os.WriteFile` fails when the
parent directory does not exist. -/

/-- A byte string, classified by whether it deserializes as an
`ApiResponse`. -/
inductive Bytes where
  | ser (r : ApiResponse) : Bytes
  | raw (content : List Nat) : Bytes
deriving DecidableEq

/-- `json.Unmarshal` of a byte string into the response type. -/
def unmarshalResponse : Bytes → Option ApiResponse
  | .ser r => some r
  | .raw _ => none

/-- The `cache.Entry` envelope `{data, created_at, expires_at, key}`. -/
structure Entry where
  data : Bytes
  createdAt : Nat
  expiresAt : Nat
  key : String
deriving DecidableEq

/-- Content of one cache entry file: either it unmarshals into `Entry`, or it
is garbage that fails the envelope decode. -/
inductive FileData where
  | entryFile (e : Entry) : FileData
  | corrupt (noise : Nat) : FileData
deriving DecidableEq

/-- The file-system state the cache touches. -/
structure FS where
  dirs : String → Bool
  files : String → Option FileData

/-- `os.Remove` on an entry file. -/
def removeFile (fs : FS) (path : String) : FS :=
  { fs with files := fun p => if p = path then none else fs.files p }

/-- `os.WriteFile` on an entry file (the parent directory is checked by the
caller). -/
def writeFile (fs : FS) (path : String) (content : FileData) : FS :=
  { fs with files := fun p => if p = path then some content else fs.files p }

/-- The `cache.Cache` value: directory, TTL and enabled flag. -/
structure Cache where
  dir : String
  ttl : Nat
  enabled : Bool
deriving DecidableEq

/-- `Cache.getPath`: `filepath.Join(c.dir, key+".json")`. -/
def Cache.getPath (c : Cache) (key : String) : String :=
  c.dir ++ "/" ++ key ++ ".json"

/-- `cache.New`: build the cache value and, when enabled, create the cache
directory (`os.MkdirAll`). -/
def cacheNew (dir : String) (ttl : Nat) (enabled : Bool) (fs : FS) : Cache × FS :=
  let c : Cache := ⟨dir, ttl, enabled⟩
  if c.enabled then
    (c, { fs with dirs := fun d => if d = dir then true else fs.dirs d })
  else (c, fs)

/-- `Cache.Get`: a disabled cache always misses; otherwise read the entry
file, delete it and miss if the envelope fails to decode, delete it and miss
if `time.Now().After(entry.ExpiresAt)`, and otherwise return the stored
payload.  Returns the found payload (if any) and the file system after the
side effects. -/
def Cache.Get (c : Cache) (fs : FS) (now : Nat) (key : String) :
    Option Bytes × FS :=
  if !c.enabled then (none, fs)
  else
    let path := c.getPath key
    match fs.files path with
    | none => (none, fs)
    | some (.corrupt _) => (none, removeFile fs path)
    | some (.entryFile e) =>
      if e.expiresAt < now then (none, removeFile fs path)
      else (some e.data, fs)

/-- `Cache.Set`: a disabled cache is a no-op; otherwise write the entry
envelope `{data, createdAt = now, expiresAt = now + ttl, key}` to the entry
file, overwriting whatever was there.  The write fails when the cache
directory does not exist. -/
def Cache.Set (c : Cache) (fs : FS) (now : Nat) (key : String) (data : Bytes) :
    Except String Unit × FS :=
  if !c.enabled then (.ok (), fs)
  else if fs.dirs c.dir then
    (.ok (), writeFile fs (c.getPath key) (.entryFile ⟨data, now, now + c.ttl, key⟩))
  else (.error "failed to write cache file", fs)

/-! ## Cache key derivation: `cache.GenerateKey`

`GenerateKey(params ...interface{})` renders every parameter with `%v` and
feeds the concatenation — with no separator — into SHA-256, keeping the first
16 hex characters.  The embedding takes the already-rendered parameter
strings (all of them ASCII: operation tags, decimal coordinate and method
renderings, `DD-MM-YYYY` dates), so the hashed byte string is the
concatenation of their character codes. -/

/-- The byte string `GenerateKey` feeds to SHA-256. -/
def generateKeyBytes (parts : List String) : List Nat :=
  ((parts.map String.toList).flatten).map Char.toNat

/-- `cache.GenerateKey`: first 16 hex characters of the SHA-256 of the
concatenated parameter renderings. -/
def GenerateKey (parts : List String) : String :=
  (sha256hex (generateKeyBytes parts)).take 16

/-! ## CachedPrayerTimesClient: `CachedClient.GetPrayerTimes`
(src/unnamed/part_004)

The wrapped `Client.GetPrayerTimes` call is embedded as its outcome `remote`;
the rendered fingerprint parameters (`%v` of latitude, longitude, the date
string and the method) are passed as strings. -/

structure CachedClient where
  cache : Option Cache
  bypass : Bool

/-- `CachedClient.GetPrayerTimes`: pass through when there is no cache, the
caller asked for bypass, or the cache is disabled; otherwise derive the
fingerprint, try the cache — returning a hit only when its bytes deserialize
— and on a miss (or an undeserializable hit) fetch remotely and, on success,
store the serialized result under the fingerprint. -/
def CachedClient.GetPrayerTimes (cc : CachedClient) (fs : FS) (now : Nat)
    (latS lonS dateS methodS : String)
    (remote : Except ApiError ApiResponse) :
    Except ApiError ApiResponse × FS :=
  match cc.cache with
  | none => (remote, fs)
  | some c =>
    if cc.bypass || !c.enabled then (remote, fs)
    else
      let key := GenerateKey ["times", latS, lonS, dateS, methodS]
      let hit := c.Get fs now key
      let afterGet := hit.2
      let fetchAndStore : Except ApiError ApiResponse × FS :=
        match remote with
        | .error e => (.error e, afterGet)
        | .ok r => (.ok r, (c.Set afterGet now key (.ser r)).2)
      match hit.1 with
      | some data =>
        match unmarshalResponse data with
        | some r => (.ok r, afterGet)
        | none => fetchAndStore
      | none => fetchAndStore

/-! ## `PrayerTimesParams.GetDateString` (src/unnamed/part_006)

Only the calendar date of `params.Date` matters to `GetDateString`, so
`time.Time` is embedded as a day-month-year record whose zero value stands
for the zero `time.Time` (January 1 of year 1); `time.Now()` is the explicit
`now` argument.  Go methods with pointer receivers mutate the receiver, so
the embedding returns the updated receiver next to the result. -/

structure GoDate where
  day : Nat
  month : Nat
  year : Nat
deriving DecidableEq

/-- The zero `time.Time` (January 1, year 1). -/
def GoDate.zero : GoDate := ⟨1, 1, 1⟩

/-- `time.Time.IsZero`. -/
def GoDate.IsZero (t : GoDate) : Bool := t == GoDate.zero

def pad2 (n : Nat) : String :=
  if n < 10 then "0" ++ toString n else toString n

def pad4 (n : Nat) : String :=
  if n < 10 then "000" ++ toString n
  else if n < 100 then "00" ++ toString n
  else if n < 1000 then "0" ++ toString n
  else toString n

/-- `Format("02-01-2006")`: zero-padded day, dash, zero-padded month, dash,
four-digit year — DD-MM-YYYY. -/
def formatDDMMYYYY (t : GoDate) : String :=
  pad2 t.day ++ "-" ++ pad2 t.month ++ "-" ++ pad4 t.year

/-- The fields of `api.PrayerTimesParams`. -/
structure PrayerTimesParams where
  latitude : Rat := 0
  longitude : Rat := 0
  address : String := ""
  date : GoDate := GoDate.zero
  method : Int := 0
  school : Int := 0
  timezone : String := ""
  language : String := ""
  adjustment : Int := 0
  iso8601 : Bool := false
  qibla : Bool := false
deriving DecidableEq

/-- `PrayerTimesParams.GetDateString`: when `p.Date` is the zero time the
method first assigns `time.Now()` to `p.Date` (a receiver mutation), then
formats `p.Date` as `02-01-2006`.  Returns the formatted string and the
receiver after the call. -/
def PrayerTimesParams.GetDateString (p : PrayerTimesParams) (now : GoDate) :
    String × PrayerTimesParams :=
  if p.date.IsZero then (formatDDMMYYYY now, { p with date := now })
  else (formatDDMMYYYY p.date, p)

/-! ## Theorems -/

/-- FIPS 180-4 test vector anchoring the SHA-256 embedding: digest of
`"abc"`. -/
theorem sha256hex_abc :
    sha256hex [97, 98, 99] =
      "ba7816bf8f01cfea414140de5dae2223b00361a396177a9cb410ff61f20015ad" := by
  decide

/-- FIPS 180-4 test vector anchoring the SHA-256 embedding: digest of the
empty message. -/
theorem sha256hex_empty :
    sha256hex [] =
      "e3b0c44298fc1c149afbf4c8996fb92427ae41e4649b934ca495991b7852b855" := by
  decide

/-- Invariant of the retry loop under an always-failing transport and a
context that never fires: starting iteration `attempt ≥ 1` with `fuel`
iterations left and the previous attempt's error recorded, the loop performs
exactly `fuel` more attempts, sleeps `i² × 100ms` before each, and exits with
the wrapped final error. -/
theorem retryLoop_allFail (maxRetries : Nat)
    (transport : Nat → Except String (List Nat)) (errOf : Nat → String)
    (hfail : ∀ n, transport n = .error (errOf n))
    (c1 c2 : Nat → Bool) (h1 : ∀ n, c1 n = false) (h2 : ∀ n, c2 n = false) :
    ∀ fuel attempt made sleeps, 0 < attempt →
      retryLoop maxRetries transport c1 c2 fuel attempt
          (some (errOf (attempt - 1))) made sleeps =
        ⟨made + fuel,
         sleeps.reverse ++ (List.range' attempt fuel).map (fun i => i * i * 100),
         .error (.wrapped (maxRetries + 1) (some (errOf (attempt + fuel - 1))))⟩ := by
  intro fuel
  induction fuel with
  | zero =>
    intro attempt made sleeps _
    simp [retryLoop, List.range']
  | succ fuel ih =>
    intro attempt made sleeps hpos
    rw [retryLoop]
    have hne : (attempt != 0) = true := by
      simp [bne]
      omega
    rw [hne, h1 attempt]
    simp only [Bool.and_false, Bool.false_eq_true, if_false]
    have heq0 : (attempt == 0) = false := by
      simp [beq_iff_eq]
      omega
    rw [heq0]
    simp only [Bool.false_eq_true, if_false]
    rw [hfail attempt, h2 attempt]
    simp only [Bool.false_eq_true, if_false]
    have hrec := ih (attempt + 1) (made + 1) (attempt * attempt * 100 :: sleeps)
      (Nat.succ_pos attempt)
    simp only [Nat.add_sub_cancel] at hrec
    rw [hrec]
    have hrange : List.range' attempt (fuel + 1) = attempt :: List.range' (attempt + 1) fuel := rfl
    rw [hrange]
    simp only [List.map_cons, List.reverse_cons, List.append_assoc, List.cons_append,
      List.nil_append]
    simp only [RetryOutcome.mk.injEq]
    refine ⟨by omega, trivial, ?_⟩
    have harith : attempt + 1 + fuel - 1 = attempt + (fuel + 1) - 1 := by omega
    rw [harith]

/-- C1: with `maxRetries ≥ 0`, a transport that fails on every attempt, and a
context that never fires, `doRequestWithRetry` makes exactly
`maxRetries + 1` attempts, sleeps `attempt² × 100ms` before each 1-based
retry `attempt = 1, …, maxRetries`, and returns the final error wrapping the
last attempt's error together with the attempt count `maxRetries + 1`. -/
theorem doRequestWithRetry_retry_bound (maxRetries : Nat)
    (transport : Nat → Except String (List Nat)) (errOf : Nat → String)
    (hfail : ∀ n, transport n = .error (errOf n))
    (c1 c2 : Nat → Bool) (h1 : ∀ n, c1 n = false) (h2 : ∀ n, c2 n = false) :
    doRequestWithRetry maxRetries transport c1 c2 =
      ⟨maxRetries + 1,
       (List.range' 1 maxRetries).map (fun i => i * i * 100),
       .error (.wrapped (maxRetries + 1) (some (errOf maxRetries)))⟩ := by
  rw [doRequestWithRetry, retryLoop]
  simp only [bne_self_eq_false, Bool.false_and, Bool.false_eq_true, if_false,
    beq_self_eq_true, if_true]
  rw [hfail 0, h2 0]
  simp only [Bool.false_eq_true, if_false]
  have hrec := retryLoop_allFail maxRetries transport errOf hfail c1 c2 h1 h2
    maxRetries 1 1 []
  simp only [Nat.sub_self] at hrec
  rw [hrec Nat.one_pos]
  simp only [List.reverse_nil, List.nil_append, RetryOutcome.mk.injEq]
  refine ⟨by omega, trivial, ?_⟩
  have harith : 1 + maxRetries - 1 = maxRetries := by omega
  rw [harith]

/-- Witness for C1 at `maxRetries = 2` with a transport that always reports
`refused`. -/
theorem doRequestWithRetry_retry_bound_witness :
    doRequestWithRetry 2 (fun _ => .error "refused") (fun _ => false) (fun _ => false) =
      ⟨3, (List.range' 1 2).map (fun i => i * i * 100),
       .error (.wrapped 3 (some "refused"))⟩ :=
  doRequestWithRetry_retry_bound 2 (fun _ => .error "refused") (fun _ => "refused")
    (fun _ => rfl) (fun _ => false) (fun _ => false) (fun _ => rfl) (fun _ => rfl)

/-- C2: if the caller's context has already fired when an attempt fails, the
retry machinery surfaces the context error immediately: the loop body returns
`ctxCanceled` right after that one failing attempt, adds no further backoff
sleep and issues no further attempt, for every remaining retry budget
(`fuel`); in particular a first-attempt failure under a fired context makes
`doRequestWithRetry` return after exactly one attempt for every
`maxRetries`. -/
theorem doRequestWithRetry_cancellation (maxRetries : Nat)
    (transport : Nat → Except String (List Nat))
    (c1 c2 : Nat → Bool) (e : String) :
    (transport 0 = .error e → c2 0 = true →
      doRequestWithRetry maxRetries transport c1 c2 =
        ⟨1, [], .error .ctxCanceled⟩)
    ∧ (∀ fuel attempt lastErr made sleeps,
        (attempt = 0 ∨ c1 attempt = false) →
        transport attempt = .error e →
        c2 attempt = true →
        retryLoop maxRetries transport c1 c2 (fuel + 1) attempt lastErr made sleeps =
          ⟨made + 1,
           (if attempt = 0 then sleeps else attempt * attempt * 100 :: sleeps).reverse,
           .error .ctxCanceled⟩) := by
  have hloop : ∀ fuel attempt lastErr made sleeps,
      (attempt = 0 ∨ c1 attempt = false) →
      transport attempt = .error e →
      c2 attempt = true →
      retryLoop maxRetries transport c1 c2 (fuel + 1) attempt lastErr made sleeps =
        ⟨made + 1,
         (if attempt = 0 then sleeps else attempt * attempt * 100 :: sleeps).reverse,
         .error .ctxCanceled⟩ := by
    intro fuel attempt lastErr made sleeps hreach htr hc2
    rw [retryLoop]
    rcases hreach with h0 | hc1
    · subst h0
      simp only [bne_self_eq_false, Bool.false_and, Bool.false_eq_true, if_false,
        beq_self_eq_true, if_true, if_pos rfl]
      rw [htr, hc2]
      simp
    · have hne : attempt = 0 ∨ attempt ≠ 0 := by omega
      rcases hne with h0 | hne
      · subst h0
        simp only [bne_self_eq_false, Bool.false_and, Bool.false_eq_true, if_false,
          beq_self_eq_true, if_true, if_pos rfl]
        rw [htr, hc2]
        simp
      · rw [hc1]
        simp only [Bool.and_false, Bool.false_eq_true, if_false]
        have heq0 : (attempt == 0) = false := by
          simp [beq_iff_eq]
          omega
        rw [heq0]
        simp only [Bool.false_eq_true, if_false]
        rw [htr, hc2]
        simp only [if_true]
        rw [if_neg hne]
  refine ⟨?_, hloop⟩
  intro htr hc2
  rw [doRequestWithRetry]
  have := hloop maxRetries 0 none 0 [] (Or.inl rfl) htr hc2
  rw [this]
  simp

/-- Witness for C2: a first-attempt failure under an already-fired context
returns the context error after one attempt, with five retries still in
budget. -/
theorem doRequestWithRetry_cancellation_witness :
    doRequestWithRetry 5 (fun _ => .error "refused") (fun _ => true) (fun _ => true) =
      ⟨1, [], .error .ctxCanceled⟩ :=
  (doRequestWithRetry_cancellation 5 (fun _ => .error "refused")
    (fun _ => true) (fun _ => true) "refused").1 rfl rfl

/-- A provider result accepted by `DetectFromIP` was a successful decode of a
structurally valid location. -/
theorem providerAccepts_okLoc_valid (p : Except String Location)
    (hp : providerAccepts p = true) : (okLoc p).IsValid = true := by
  cases p with
  | ok l => simpa [providerAccepts, okLoc] using hp
  | error s => simp [providerAccepts] at hp

/-- C3: `DetectFromIP` tries ip-api.com, ipinfo.io, ipapi.co in order,
returns the first decoded result passing `IsValid` stamped with
`source = "ip"` and `detectedAt = now`, calls no provider beyond the first
accepted one (the second component counts the providers called), and when all
three are rejected returns the single aggregated error; every `ok` result it
can return is valid and stamped, never partially populated. -/
theorem DetectFromIP_fallback (p1 p2 p3 : Except String Location) (now : Nat) :
    (∀ loc, (DetectFromIP p1 p2 p3 now).1 = .ok loc →
        loc.IsValid = true ∧ loc.source = "ip" ∧ loc.detectedAt = some now)
    ∧ (providerAccepts p1 = true →
        DetectFromIP p1 p2 p3 now = (.ok (stampIP (okLoc p1) now), 1))
    ∧ (providerAccepts p1 = false → providerAccepts p2 = true →
        DetectFromIP p1 p2 p3 now = (.ok (stampIP (okLoc p2) now), 2))
    ∧ (providerAccepts p1 = false → providerAccepts p2 = false →
        providerAccepts p3 = true →
        DetectFromIP p1 p2 p3 now = (.ok (stampIP (okLoc p3) now), 3))
    ∧ (providerAccepts p1 = false → providerAccepts p2 = false →
        providerAccepts p3 = false →
        DetectFromIP p1 p2 p3 now =
          (.error "failed to detect location from IP: all services failed", 3)) := by
  have hacc1 : providerAccepts p1 = true →
      DetectFromIP p1 p2 p3 now = (.ok (stampIP (okLoc p1) now), 1) := by
    intro h
    unfold DetectFromIP
    rw [if_pos h]
  have hacc2 : providerAccepts p1 = false → providerAccepts p2 = true →
      DetectFromIP p1 p2 p3 now = (.ok (stampIP (okLoc p2) now), 2) := by
    intro h1 h2
    unfold DetectFromIP
    rw [if_neg (by simp [h1]), if_pos h2]
  have hacc3 : providerAccepts p1 = false → providerAccepts p2 = false →
      providerAccepts p3 = true →
      DetectFromIP p1 p2 p3 now = (.ok (stampIP (okLoc p3) now), 3) := by
    intro h1 h2 h3
    unfold DetectFromIP
    rw [if_neg (by simp [h1]), if_neg (by simp [h2]), if_pos h3]
  have haccnone : providerAccepts p1 = false → providerAccepts p2 = false →
      providerAccepts p3 = false →
      DetectFromIP p1 p2 p3 now =
        (.error "failed to detect location from IP: all services failed", 3) := by
    intro h1 h2 h3
    unfold DetectFromIP
    rw [if_neg (by simp [h1]), if_neg (by simp [h2]), if_neg (by simp [h3])]
  refine ⟨?_, hacc1, hacc2, hacc3, haccnone⟩
  intro loc hloc
  have hstamped : ∀ p, providerAccepts p = true → stampIP (okLoc p) now = loc →
      loc.IsValid = true ∧ loc.source = "ip" ∧ loc.detectedAt = some now := by
    intro p hp heq
    subst heq
    refine ⟨?_, rfl, rfl⟩
    have := providerAccepts_okLoc_valid p hp
    simpa [stampIP, Location.IsValid] using this
  cases h1 : providerAccepts p1 with
  | true =>
    rw [hacc1 h1] at hloc
    simp only [Except.ok.injEq] at hloc
    exact hstamped p1 h1 hloc
  | false =>
    cases h2 : providerAccepts p2 with
    | true =>
      rw [hacc2 h1 h2] at hloc
      simp only [Except.ok.injEq] at hloc
      exact hstamped p2 h2 hloc
    | false =>
      cases h3 : providerAccepts p3 with
      | true =>
        rw [hacc3 h1 h2 h3] at hloc
        simp only [Except.ok.injEq] at hloc
        exact hstamped p3 h3 hloc
      | false =>
        rw [haccnone h1 h2 h3] at hloc
        simp at hloc

/-- Witness for C3, the fallback scenario of the spec: provider 1 fails with
an HTTP 500, provider 2 decodes to the structurally invalid coordinates
(0,0), provider 3 decodes to (30.04, 31.23); the resolver returns the third
result stamped `source = "ip"` after calling all three providers. -/
theorem DetectFromIP_fallback_witness :
    DetectFromIP (.error "unexpected status code: 500")
        (.ok { latitude := 0, longitude := 0 })
        (.ok { latitude := 30.04, longitude := 31.23 }) 7 =
      (.ok { latitude := 30.04, longitude := 31.23,
             source := "ip", detectedAt := some 7 }, 3) := by
  have h := (DetectFromIP_fallback (.error "unexpected status code: 500")
      (.ok { latitude := 0, longitude := 0 })
      (.ok { latitude := 30.04, longitude := 31.23 }) 7).2.2.2.1
    (by norm_num [providerAccepts])
    (by norm_num [providerAccepts, Location.IsValid])
    (by norm_num [providerAccepts, Location.IsValid])
  simpa [stampIP, okLoc] using h

/-- A transport success on the first attempt short-circuits the retry loop:
one attempt, no backoff sleep, the body returned as is. -/
theorem doRequestWithRetry_firstSuccess (maxRetries : Nat)
    (transport : Nat → Except String (List Nat)) (c1 c2 : Nat → Bool)
    (body : List Nat) (h : transport 0 = .ok body) :
    doRequestWithRetry maxRetries transport c1 c2 = ⟨1, [], .ok body⟩ := by
  rw [doRequestWithRetry, retryLoop]
  simp only [bne_self_eq_false, Bool.false_and, Bool.false_eq_true, if_false,
    beq_self_eq_true, if_true]
  rw [h]
  simp

/-- C4 counterexample: `GetCalendarMonth` returns the decoded payload even
when the numeric status code inside the body is 500, so the claim that every
payload-returning operation checks the body code against 200 is false on the
code. -/
theorem GetCalendarMonth_code_unchecked :
    GetCalendarMonth (.ok [7]) (fun _ => some ⟨500, "Internal Server Error", [3, 4]⟩) =
      .ok [3, 4] ∧ (500 : Int) ≠ 200 :=
  ⟨rfl, by decide⟩

/-- C4 amended: `GetPrayerTimes`, `GetPrayerTimesByAddress` and `GetQibla`
return the decoded payload exactly when the numeric code in the body equals
200 and otherwise surface the remote application error carrying the remote
status and code; that error is produced after the retrying fetch has already
returned (an HTTP-2xx first attempt is never retried — the pipeline makes
exactly one attempt); `GetCalendarMonth` however returns the decoded payload
without consulting the body code. -/
theorem apiBodyCode_check :
    (∀ (body : List Nat) (r : ApiResponse) (parse : List Nat → Option ApiResponse),
        parse body = some r →
          (r.code = 200 → GetPrayerTimes (.ok body) parse = .ok r)
          ∧ (r.code ≠ 200 →
              GetPrayerTimes (.ok body) parse = .error (.apiError r.status r.code)))
    ∧ (∀ (address : String) (body : List Nat) (r : ApiResponse)
          (parse : List Nat → Option ApiResponse),
        address ≠ "" → parse body = some r →
          (r.code = 200 → GetPrayerTimesByAddress address (.ok body) parse = .ok r)
          ∧ (r.code ≠ 200 →
              GetPrayerTimesByAddress address (.ok body) parse =
                .error (.apiError r.status r.code)))
    ∧ (∀ (body : List Nat) (r : ApiResponse) (parse : List Nat → Option ApiResponse),
        parse body = some r →
          (r.code = 200 → GetQibla (.ok body) parse = .ok r)
          ∧ (r.code ≠ 200 →
              GetQibla (.ok body) parse = .error (.apiError r.status r.code)))
    ∧ (∀ (body : List Nat) (env : CalendarBody)
          (parse : List Nat → Option CalendarBody),
        parse body = some env → GetCalendarMonth (.ok body) parse = .ok env.data)
    ∧ (∀ (maxRetries : Nat) (transport : Nat → Except String (List Nat))
          (c1 c2 : Nat → Bool) (parse : List Nat → Option ApiResponse)
          (body : List Nat),
        transport 0 = .ok body →
          GetPrayerTimesPipeline maxRetries transport c1 c2 parse =
            (GetPrayerTimes (.ok body) parse, 1)) := by
  refine ⟨?_, ?_, ?_, ?_, ?_⟩
  · intro body r parse hparse
    constructor
    · intro hc
      simp [GetPrayerTimes, hparse, hc]
    · intro hc
      simp [GetPrayerTimes, hparse, hc]
  · intro address body r parse haddr hparse
    constructor
    · intro hc
      simp [GetPrayerTimesByAddress, GetPrayerTimes, haddr, hparse, hc]
    · intro hc
      simp [GetPrayerTimesByAddress, GetPrayerTimes, haddr, hparse, hc]
  · intro body r parse hparse
    constructor
    · intro hc
      simp [GetQibla, hparse, hc]
    · intro hc
      simp [GetQibla, hparse, hc]
  · intro body env parse hparse
    simp [GetCalendarMonth, hparse]
  · intro maxRetries transport c1 c2 parse body h
    rw [GetPrayerTimesPipeline, doRequestWithRetry_firstSuccess maxRetries transport c1 c2 body h]

/-- Witness for the amended C4: a body whose code is 500 is rejected by
`GetPrayerTimes` with the remote status and code. -/
theorem apiBodyCode_check_witness :
    GetPrayerTimes (.ok [1]) (fun _ => some ⟨500, "SERVER ERROR", 9⟩) =
      .error (.apiError "SERVER ERROR" 500) :=
  (apiBodyCode_check.1 [1] ⟨500, "SERVER ERROR", 9⟩
    (fun _ => some ⟨500, "SERVER ERROR", 9⟩) rfl).2 (by decide)

/-- `Char.toNat` is injective, so a byte string determines its characters. -/
theorem charToNat_injective : Function.Injective Char.toNat :=
  fun _ _ h => Char.ext (UInt32.ext h)

/-- C5: the cache fingerprint is a pure function of the rendered logical
parameters — identical parameters always produce identical keys, with no
randomness and no clock input — and the byte string hashed by `GenerateKey`
changes whenever any single parameter rendering changes; concretely, over the
prayer-times fingerprint `("times", latitude, longitude, date, method)`,
changing only the date, only the method, or only a coordinate changes the
resulting key. -/
theorem GenerateKey_fingerprint :
    (∀ parts1 parts2 : List String, parts1 = parts2 →
        GenerateKey parts1 = GenerateKey parts2)
    ∧ (∀ (pre post : List String) (a b : String), a ≠ b →
        generateKeyBytes (pre ++ a :: post) ≠ generateKeyBytes (pre ++ b :: post))
    ∧ GenerateKey ["times", "30.0444", "31.2357", "05-10-2026", "5"] ≠
        GenerateKey ["times", "30.0444", "31.2357", "06-10-2026", "5"]
    ∧ GenerateKey ["times", "30.0444", "31.2357", "05-10-2026", "5"] ≠
        GenerateKey ["times", "30.0444", "31.2357", "05-10-2026", "3"]
    ∧ GenerateKey ["times", "30.0444", "31.2357", "05-10-2026", "5"] ≠
        GenerateKey ["times", "30.0445", "31.2357", "05-10-2026", "5"] := by
  refine ⟨fun _ _ h => h ▸ rfl, ?_, by decide, by decide, by decide⟩
  intro pre post a b hab hcontra
  apply hab
  unfold generateKeyBytes at hcontra
  have hflat := charToNat_injective.list_map hcontra
  rw [List.map_append, List.map_append, List.map_cons, List.map_cons,
    List.flatten_append, List.flatten_append, List.flatten_cons, List.flatten_cons]
    at hflat
  have h1 := List.append_cancel_left hflat
  have h2 := List.append_cancel_right h1
  exact String.ext h2

/-- Witness for C5: determinism and input separation at concrete parameter
lists. -/
theorem GenerateKey_fingerprint_witness :
    GenerateKey ["qibla", "30.0444", "31.2357"] = GenerateKey ["qibla", "30.0444", "31.2357"]
    ∧ generateKeyBytes (["times", "1"] ++ "05-10-2026" :: ["5"]) ≠
        generateKeyBytes (["times", "1"] ++ "06-10-2026" :: ["5"]) :=
  ⟨GenerateKey_fingerprint.1 _ _ rfl,
   GenerateKey_fingerprint.2.1 ["times", "1"] ["5"] "05-10-2026" "06-10-2026" (by decide)⟩

/-- C6: on an enabled cache, `Get` misses when the entry file is absent,
when its envelope fails to decode, and when the current time is past
`expiresAt`; in the latter two cases the entry file is deleted, so after the
call it no longer exists. -/
theorem Cache_Get_miss_selfheal (c : Cache) (fs : FS) (now : Nat) (key : String)
    (hen : c.enabled = true) :
    (fs.files (c.getPath key) = none → c.Get fs now key = (none, fs))
    ∧ (∀ n, fs.files (c.getPath key) = some (.corrupt n) →
        c.Get fs now key = (none, removeFile fs (c.getPath key))
        ∧ (c.Get fs now key).2.files (c.getPath key) = none)
    ∧ (∀ e, fs.files (c.getPath key) = some (.entryFile e) → e.expiresAt < now →
        c.Get fs now key = (none, removeFile fs (c.getPath key))
        ∧ (c.Get fs now key).2.files (c.getPath key) = none) := by
  refine ⟨?_, ?_, ?_⟩
  · intro h
    simp [Cache.Get, hen, h]
  · intro n h
    have hg : c.Get fs now key = (none, removeFile fs (c.getPath key)) := by
      simp [Cache.Get, hen, h]
    exact ⟨hg, by rw [hg]; simp [removeFile]⟩
  · intro e h hexp
    have hg : c.Get fs now key = (none, removeFile fs (c.getPath key)) := by
      simp [Cache.Get, hen, h, hexp]
    exact ⟨hg, by rw [hg]; simp [removeFile]⟩

/-- Witness for C6: a corrupt entry file makes `Get` miss and deletes the
file. -/
theorem Cache_Get_miss_selfheal_witness :
    (Cache.Get ⟨"cachedir", 100, true⟩
        ⟨fun _ => true,
         fun p => if p = "cachedir/k.json" then some (.corrupt 5) else none⟩
        50 "k").1 = none
    ∧ (Cache.Get ⟨"cachedir", 100, true⟩
        ⟨fun _ => true,
         fun p => if p = "cachedir/k.json" then some (.corrupt 5) else none⟩
        50 "k").2.files "cachedir/k.json" = none := by
  have h := (Cache_Get_miss_selfheal ⟨"cachedir", 100, true⟩
      ⟨fun _ => true,
       fun p => if p = "cachedir/k.json" then some (.corrupt 5) else none⟩
      50 "k" rfl).2.1 5 (by rfl)
  refine ⟨by rw [h.1], ?_⟩
  have h2 := h.2
  simpa [Cache.getPath] using h2

/-- C7: on an enabled cache whose directory exists and whose TTL is
positive, a `Get` immediately after `Set k v` returns `v` as found, and a
`Get` more than `ttl` after the `Set` misses. -/
theorem Cache_Set_Get_ttl (c : Cache) (fs : FS) (now later : Nat) (key : String)
    (v : Bytes) (hen : c.enabled = true) (hdir : fs.dirs c.dir = true)
    (httl : 0 < c.ttl) :
    c.Get (c.Set fs now key v).2 now key = (some v, (c.Set fs now key v).2)
    ∧ (now + c.ttl < later → (c.Get (c.Set fs now key v).2 later key).1 = none) := by
  have hset : (c.Set fs now key v).2 =
      writeFile fs (c.getPath key) (.entryFile ⟨v, now, now + c.ttl, key⟩) := by
    simp [Cache.Set, hen, hdir]
  have hfile : (c.Set fs now key v).2.files (c.getPath key) =
      some (.entryFile ⟨v, now, now + c.ttl, key⟩) := by
    rw [hset]
    simp [writeFile]
  have hna : ¬ (now + c.ttl < now) := by omega
  constructor
  · simp [Cache.Get, hen, hfile, hna]
  · intro hlater
    simp [Cache.Get, hen, hfile, hlater]

/-- Witness for C7: set then read back, and miss after expiry. -/
theorem Cache_Set_Get_ttl_witness :
    Cache.Get ⟨"cachedir", 60, true⟩
        (Cache.Set ⟨"cachedir", 60, true⟩ ⟨fun _ => true, fun _ => none⟩
          10 "k" (.raw [1, 2])).2 10 "k" =
      (some (.raw [1, 2]),
       (Cache.Set ⟨"cachedir", 60, true⟩ ⟨fun _ => true, fun _ => none⟩
        10 "k" (.raw [1, 2])).2)
    ∧ (Cache.Get ⟨"cachedir", 60, true⟩
        (Cache.Set ⟨"cachedir", 60, true⟩ ⟨fun _ => true, fun _ => none⟩
          10 "k" (.raw [1, 2])).2 71 "k").1 = none := by
  have h := Cache_Set_Get_ttl ⟨"cachedir", 60, true⟩ ⟨fun _ => true, fun _ => none⟩
    10 71 "k" (.raw [1, 2]) rfl rfl (by decide)
  exact ⟨h.1, h.2 (by decide)⟩

/-- C9: after `cache.New` on an enabled cache, `Set` writes the entry
envelope `{payload, createdAt = now, expiresAt = now + ttl}` under the key
and succeeds even when the cache directory did not exist beforehand, and the
written envelope replaces whatever entry was previously stored under that
key. -/
theorem cacheNew_Set_creates_dir (dir : String) (ttl : Nat) (fs0 : FS)
    (now : Nat) (key : String) (v : Bytes) (_hdir0 : fs0.dirs dir = false) :
    ((cacheNew dir ttl true fs0).1.Set (cacheNew dir ttl true fs0).2 now key v).1 =
      .ok ()
    ∧ ((cacheNew dir ttl true fs0).1.Set (cacheNew dir ttl true fs0).2 now key v).2.files
        ((cacheNew dir ttl true fs0).1.getPath key) =
      some (.entryFile ⟨v, now, now + ttl, key⟩) := by
  constructor
  · simp [cacheNew, Cache.Set, writeFile]
  · simp [cacheNew, Cache.Set, writeFile]

/-- Witness for C9: a fresh file system without the cache directory. -/
theorem cacheNew_Set_creates_dir_witness :
    ((cacheNew "cachedir" 60 true ⟨fun _ => false, fun _ => none⟩).1.Set
        (cacheNew "cachedir" 60 true ⟨fun _ => false, fun _ => none⟩).2 10 "k"
        (.raw [3])).1 = .ok ()
    ∧ ((cacheNew "cachedir" 60 true ⟨fun _ => false, fun _ => none⟩).1.Set
        (cacheNew "cachedir" 60 true ⟨fun _ => false, fun _ => none⟩).2 10 "k"
        (.raw [3])).2.files
        ((cacheNew "cachedir" 60 true ⟨fun _ => false, fun _ => none⟩).1.getPath "k") =
      some (.entryFile ⟨.raw [3], 10, 70, "k"⟩) :=
  cacheNew_Set_creates_dir "cachedir" 60 ⟨fun _ => false, fun _ => none⟩ 10 "k"
    (.raw [3]) rfl

/-- C8 counterexample: a cache hit whose payload bytes fail to deserialize
was NOT purged by `Cache.Get` — the envelope decoded fine, so `Get` returns
the bytes as found and leaves the entry file in place. -/
theorem Cache_Get_returns_undeserializable_hit :
    (Cache.Get ⟨"cachedir", 10, true⟩
        ⟨fun _ => true,
         fun p => if p = Cache.getPath ⟨"cachedir", 10, true⟩
             (GenerateKey ["times", "30", "31", "05-10-2026", "5"]) then
           some (.entryFile ⟨.raw [9], 0, 100,
             GenerateKey ["times", "30", "31", "05-10-2026", "5"]⟩)
         else none⟩
        50 (GenerateKey ["times", "30", "31", "05-10-2026", "5"])).1 =
      some (.raw [9])
    ∧ unmarshalResponse (.raw [9]) = none
    ∧ (Cache.Get ⟨"cachedir", 10, true⟩
        ⟨fun _ => true,
         fun p => if p = Cache.getPath ⟨"cachedir", 10, true⟩
             (GenerateKey ["times", "30", "31", "05-10-2026", "5"]) then
           some (.entryFile ⟨.raw [9], 0, 100,
             GenerateKey ["times", "30", "31", "05-10-2026", "5"]⟩)
         else none⟩
        50 (GenerateKey ["times", "30", "31", "05-10-2026", "5"])).2.files
        (Cache.getPath ⟨"cachedir", 10, true⟩
          (GenerateKey ["times", "30", "31", "05-10-2026", "5"])) =
      some (.entryFile ⟨.raw [9], 0, 100,
        GenerateKey ["times", "30", "31", "05-10-2026", "5"]⟩) := by
  refine ⟨?_, rfl, ?_⟩ <;> simp [Cache.Get]

/-- C8 amended: when `CachedClient.GetPrayerTimes` gets a cache hit whose
bytes fail to deserialize, it treats the hit as a miss and falls through to
the remote fetch; the corrupt entry is NOT purged by the cache `Get` (its
envelope decoded fine), but remains in place until the `Set` after a
successful remote fetch overwrites it under the same fingerprint. -/
theorem CachedClient_corrupt_hit (cc : CachedClient) (c : Cache) (fs : FS)
    (now : Nat) (latS lonS dateS methodS key : String) (r : ApiResponse)
    (bad : Bytes) (created expires : Nat)
    (hkey : key = GenerateKey ["times", latS, lonS, dateS, methodS])
    (hcc : cc.cache = some c) (hbyp : cc.bypass = false) (hen : c.enabled = true)
    (hdir : fs.dirs c.dir = true)
    (hfile : fs.files (c.getPath key) =
        some (.entryFile ⟨bad, created, expires, key⟩))
    (hbad : unmarshalResponse bad = none)
    (hnotexp : ¬ expires < now) :
    cc.GetPrayerTimes fs now latS lonS dateS methodS (.ok r) =
      (.ok r,
       writeFile fs (c.getPath key) (.entryFile ⟨.ser r, now, now + c.ttl, key⟩))
    ∧ c.Get fs now key = (some bad, fs) := by
  have hget : c.Get fs now key = (some bad, fs) := by
    simp [Cache.Get, hen, hfile, hnotexp]
  refine ⟨?_, hget⟩
  rw [CachedClient.GetPrayerTimes, hcc]
  simp only [hbyp, hen, Bool.not_true, Bool.or_false, Bool.false_eq_true, if_false]
  rw [← hkey, hget]
  simp only [hbad]
  simp [Cache.Set, hen, hdir]

/-- Witness for the amended C8: an enabled, non-bypassed cached client with
an unexpired entry whose payload is not a serialized response. -/
theorem CachedClient_corrupt_hit_witness :
    CachedClient.GetPrayerTimes ⟨some ⟨"cachedir", 10, true⟩, false⟩
        ⟨fun _ => true,
         fun p => if p = Cache.getPath ⟨"cachedir", 10, true⟩
             (GenerateKey ["times", "30", "31", "06-10-2026", "5"]) then
           some (.entryFile ⟨.raw [9], 0, 100,
             GenerateKey ["times", "30", "31", "06-10-2026", "5"]⟩)
         else none⟩
        50 "30" "31" "06-10-2026" "5" (.ok ⟨200, "OK", 1⟩) =
      (.ok ⟨200, "OK", 1⟩,
       writeFile
        ⟨fun _ => true,
         fun p => if p = Cache.getPath ⟨"cachedir", 10, true⟩
             (GenerateKey ["times", "30", "31", "06-10-2026", "5"]) then
           some (.entryFile ⟨.raw [9], 0, 100,
             GenerateKey ["times", "30", "31", "06-10-2026", "5"]⟩)
         else none⟩
        (Cache.getPath ⟨"cachedir", 10, true⟩
          (GenerateKey ["times", "30", "31", "06-10-2026", "5"]))
        (.entryFile ⟨.ser ⟨200, "OK", 1⟩, 50, 60,
          GenerateKey ["times", "30", "31", "06-10-2026", "5"]⟩)) := by
  have h := (CachedClient_corrupt_hit ⟨some ⟨"cachedir", 10, true⟩, false⟩
      ⟨"cachedir", 10, true⟩
      ⟨fun _ => true,
       fun p => if p = Cache.getPath ⟨"cachedir", 10, true⟩
           (GenerateKey ["times", "30", "31", "06-10-2026", "5"]) then
         some (.entryFile ⟨.raw [9], 0, 100,
           GenerateKey ["times", "30", "31", "06-10-2026", "5"]⟩)
       else none⟩
      50 "30" "31" "06-10-2026" "5"
      (GenerateKey ["times", "30", "31", "06-10-2026", "5"])
      ⟨200, "OK", 1⟩ (.raw [9]) 0 100 rfl rfl rfl rfl rfl
      (by simp) rfl (by decide)).1
  simpa using h

/-- C10: `GetDateString` is not read-only — a zero `Date` is overwritten
with the current time before formatting, mutating the receiver, while a
non-zero `Date` leaves the receiver unchanged and is formatted as
DD-MM-YYYY. -/
theorem GetDateString_mutation (p : PrayerTimesParams) (now : GoDate) :
    (p.date.IsZero = true →
        p.GetDateString now = (formatDDMMYYYY now, { p with date := now })
        ∧ (now.IsZero = false → ({ p with date := now } : PrayerTimesParams) ≠ p))
    ∧ (p.date.IsZero = false →
        p.GetDateString now = (formatDDMMYYYY p.date, p)) := by
  constructor
  · intro hz
    constructor
    · simp [PrayerTimesParams.GetDateString, hz]
    · intro hnz hcontra
      have hdate : ({ p with date := now } : PrayerTimesParams).date = p.date := by
        rw [hcontra]
      simp only at hdate
      rw [GoDate.IsZero, beq_iff_eq] at hz
      rw [GoDate.IsZero] at hnz
      have hne : now ≠ GoDate.zero := by simpa using hnz
      exact hne (hdate.trans hz)
  · intro hz
    simp [PrayerTimesParams.GetDateString, hz]

/-- Witness for C10: default parameters carry the zero date; after the call
the receiver holds the supplied current date. -/
theorem GetDateString_mutation_witness :
    PrayerTimesParams.GetDateString {} ⟨11, 10, 2026⟩ =
      ("11-10-2026", { date := ⟨11, 10, 2026⟩ })
    ∧ ({ date := ⟨11, 10, 2026⟩ } : PrayerTimesParams) ≠ {} := by
  have h := (GetDateString_mutation {} ⟨11, 10, 2026⟩).1 (by decide)
  exact ⟨h.1.trans (by decide), h.2 (by decide)⟩

end PrayCli
